import Mathlib

/-!
Shallow embedding of the OpenAL-based audio renderer in `audio.cpp`
(`AudioFrame`, `AudioRenderer` and its methods `pushFrame`, `popFrame`,
`consumeFrame`, `waitForProcessedBuffer`, `audioThreadHandler`,
`getBufferSize`, `getSecondsPlayed`, `resetSecondsPlayed`).

Modelling conventions:
- C `int` counters (`queuedSampleCount`, `bufferedSampleCount`) are `Int`;
  frame metadata (`sampleCount`, `sampleRate`, `channelCount`) are `Nat`
  (negative values make the C code read out of bounds, which is undefined).
- the C `float secondsPlayed` is modelled exactly as a rational `Rat`.
- The OpenAL device is modelled by the data the engine itself stores into it:
  a FIFO list of buffers (`devQueue`, front = oldest queued = next processed),
  where `alBufferData` records frequency, channel count (derived from the
  16-bit mono/stereo format enum), bits (16) and byte size.  The buffer also
  carries the submitted frame's sample count so that resident content can be
  summed; `alGetBufferi` reads only the stored device fields.
- The playback thread's blocking points (`popFrame` on an empty queue, the
  busy wait in `waitForProcessedBuffer`) end the observable trace of a run.
- The device playback state (`AL_SOURCE_STATE`) after each steady-state
  submission is an external input, supplied as an oracle `Nat → Bool`
  (`true` = `AL_PLAYING`); an underrun is an oracle answer of `false`.
-/

/-- The C struct `AudioFrame` from audio.cpp: sample metadata plus interleaved
16-bit samples (modelled as integers). -/
structure AudioFrame where
  sampleCount : Nat
  sampleRate : Nat
  channelCount : Nat
  samples : List Int
deriving DecidableEq, Repr

/-- The two OpenAL formats the renderer ever uses. -/
inductive ALFormat where
  | mono16
  | stereo16
deriving DecidableEq, Repr

/-- Channel count the device stores for a format (`AL_CHANNELS`). -/
def ALFormat.channelCount : ALFormat → Nat
  | .mono16 => 1
  | .stereo16 => 2

/-- Bits per sample the device stores for a format (`AL_BITS`): both formats
are 16-bit. -/
def ALFormat.bits : ALFormat → Nat
  | .mono16 => 16
  | .stereo16 => 16

/-- A device buffer as filled by `alBufferData`: the handle index, the stored
frequency/channels/bits/size, and (for content accounting) the sample count of
the frame that was submitted into it. -/
structure DevBuffer where
  idx : Nat
  frequency : Nat
  channels : Nat
  bits : Nat
  size : Nat
  frameSampleCount : Nat
deriving DecidableEq, Repr

/-- The mutable state of `class AudioRenderer`: the frame queue, the two
sample counters, the playback clock, and the device's buffer FIFO. -/
structure AudioRenderer where
  audioQueue : List AudioFrame
  queuedSampleCount : Int
  bufferedSampleCount : Int
  secondsPlayed : Rat
  devQueue : List DevBuffer
deriving DecidableEq

/-- Constructor state: counters zero, clock zero, nothing queued anywhere. -/
def initialRenderer : AudioRenderer :=
  { audioQueue := []
    queuedSampleCount := 0
    bufferedSampleCount := 0
    secondsPlayed := 0
    devQueue := [] }

/-- audio.cpp:174 — `frame->channelCount == 1 ? AL_FORMAT_MONO16 :
AL_FORMAT_STEREO16`. -/
def consumeFrameFormat (f : AudioFrame) : ALFormat :=
  if f.channelCount = 1 then ALFormat.mono16 else ALFormat.stereo16

/-- audio.cpp:175 — `frame->sampleCount * frame->channelCount *
sizeof(int16_t)`. -/
def consumeFrameSize (f : AudioFrame) : Nat :=
  f.sampleCount * f.channelCount * 2

/-- The device buffer produced by `alBufferData(buffer, format, data, size,
frequency)` in `consumeFrame` for buffer handle `i`. -/
def bufferDataOf (i : Nat) (f : AudioFrame) : DevBuffer :=
  { idx := i
    frequency := f.sampleRate
    channels := (consumeFrameFormat f).channelCount
    bits := (consumeFrameFormat f).bits
    size := consumeFrameSize f
    frameSampleCount := f.sampleCount }

/-- audio.cpp:286-310 — `pushFrame`: build a frame copying
`sampleCount * channelCount` samples from the caller's buffer, append it to
the queue and add its sample count to `queuedSampleCount` in one critical
section. -/
def AudioRenderer.pushFrame (st : AudioRenderer) (samples : List Int)
    (sampleCount sampleRate channelCount : Nat) : AudioRenderer :=
  let f : AudioFrame :=
    { sampleCount := sampleCount
      sampleRate := sampleRate
      channelCount := channelCount
      samples := samples.take (sampleCount * channelCount) }
  { st with
    audioQueue := st.audioQueue ++ [f]
    queuedSampleCount := st.queuedSampleCount + (f.sampleCount : Int) }

/-- audio.cpp:150-171 — `popFrame` once the queue is non-empty: remove the
head frame and subtract its sample count in the same critical section.
`none` models the blocked (empty-queue, still waiting) situation. -/
def AudioRenderer.popFrame (st : AudioRenderer) :
    Option (AudioFrame × AudioRenderer) :=
  match st.audioQueue with
  | [] => none
  | f :: rest =>
    some (f, { st with
      audioQueue := rest
      queuedSampleCount := st.queuedSampleCount - (f.sampleCount : Int) })

/-- Outcome of one observation of `popFrame` (audio.cpp:150-171) including
the error branch of `pthread_cond_wait` (audio.cpp:155-159). -/
inductive PopFrameResult where
  | frame (f : AudioFrame) (st : AudioRenderer)
  | nullMutexHeld (st : AudioRenderer)
  | blocked
deriving DecidableEq

/-- audio.cpp:150-171 — `popFrame` with the condition-wait error path made
explicit.  With a non-empty queue the wait loop is never entered and the head
frame is returned with the mutex released.  With an empty queue the thread
waits; if `pthread_cond_wait` reports an error (`waitErr = true`) the function
prints and executes `return nullptr` WITHOUT unlocking the mutex
(audio.cpp:158); otherwise it keeps waiting. -/
def AudioRenderer.popFrameWithWait (st : AudioRenderer) (waitErr : Bool) :
    PopFrameResult :=
  match st.audioQueue with
  | f :: rest =>
    PopFrameResult.frame f { st with
      audioQueue := rest
      queuedSampleCount := st.queuedSampleCount - (f.sampleCount : Int) }
  | [] => if waitErr then PopFrameResult.nullMutexHeld st else PopFrameResult.blocked

/-- audio.cpp:173-189 — `consumeFrame`: fill device buffer `i` with the
frame's data (`alBufferData`), queue it on the source, then under the lock add
the frame's sample count to `bufferedSampleCount` and
`sampleCount / sampleRate` seconds to `secondsPlayed`. -/
def AudioRenderer.consumeFrame (st : AudioRenderer) (i : Nat)
    (f : AudioFrame) : AudioRenderer :=
  { st with
    devQueue := st.devQueue ++ [bufferDataOf i f]
    bufferedSampleCount := st.bufferedSampleCount + (f.sampleCount : Int)
    secondsPlayed := st.secondsPlayed + (f.sampleCount : Rat) / (f.sampleRate : Rat) }

/-- audio.cpp:221 — `size * 8 / (channels * bits)` in C integer arithmetic:
the sample count the engine recomputes from a reclaimed buffer's stored
fields. -/
def reclaimedSampleCount (b : DevBuffer) : Nat :=
  b.size * 8 / (b.channels * b.bits)

/-- audio.cpp:191-227 — `waitForProcessedBuffer`: busy-wait until the device
has a processed buffer (the device plays buffers FIFO, so the front of
`devQueue` is processed first), unqueue it, and subtract the sample count
recomputed from its stored size/channels/bits from `bufferedSampleCount`.
`none` models the engine spinning forever because no buffer is queued. -/
def AudioRenderer.waitForProcessedBuffer (st : AudioRenderer) :
    Option (DevBuffer × AudioRenderer) :=
  match st.devQueue with
  | [] => none
  | b :: rest =>
    some (b, { st with
      devQueue := rest
      bufferedSampleCount := st.bufferedSampleCount - (reclaimedSampleCount b : Int) })

/-- audio.cpp:270 — `alSourcei(source, AL_BUFFER, 0)`: detach every buffer
from the source.  No counter is touched. -/
def AudioRenderer.detachAllBuffers (st : AudioRenderer) : AudioRenderer :=
  { st with devQueue := [] }

/-- audio.cpp:328-336 — `getBufferSize`: `bufferedSampleCount +
queuedSampleCount` under the lock. -/
def AudioRenderer.getBufferSize (st : AudioRenderer) : Int :=
  st.bufferedSampleCount + st.queuedSampleCount

/-- audio.cpp:312-320 — `getSecondsPlayed`: read the clock under the lock. -/
def AudioRenderer.getSecondsPlayed (st : AudioRenderer) : Rat :=
  st.secondsPlayed

/-- audio.cpp:322-326 — `resetSecondsPlayed`: set the clock to 0 under the
lock. -/
def AudioRenderer.resetSecondsPlayed (st : AudioRenderer) : AudioRenderer :=
  { st with secondsPlayed := 0 }

/-- Observable actions the playback thread performs on the Output Device. -/
inductive AudioEvent where
  | submit (bufferIdx : Nat) (frame : AudioFrame)
  | sourcePlay
  | sourceStop
  | detachBuffers
deriving DecidableEq, Repr

/-- The frames carried by the `submit` events of a trace, in trace order. -/
def submittedFrames (evs : List AudioEvent) : List AudioFrame :=
  evs.filterMap fun e =>
    match e with
    | AudioEvent.submit _ f => some f
    | _ => none

/-- One `consumeFrame(buffers[i], popFrame())` loop (audio.cpp:231-233 and
audio.cpp:278-280): fill the listed buffer indices with popped frames in
order.  Returns the events, the final state, and whether every listed buffer
was filled (`false` = the thread is blocked in `popFrame` with the queue
drained). -/
def fillBuffers : List Nat → AudioRenderer → List AudioEvent × AudioRenderer × Bool
  | [], st => ([], st, true)
  | i :: is, st =>
    match st.popFrame with
    | none => ([], st, false)
    | some (f, st1) =>
      let r := fillBuffers is (st1.consumeFrame i f)
      (AudioEvent.submit i f :: r.1, r.2.1, r.2.2)

/-- audio.cpp:269-280 — the format-change section: detach all buffers, stop
the source, submit the pending mismatched frame into buffer 0, then pop and
submit fresh frames into buffers 1..4; on completion the outer loop reissues
`alSourcePlay`. -/
def formatChangeReset (st : AudioRenderer) (f : AudioFrame) :
    List AudioEvent × AudioRenderer × Bool :=
  let st1 := st.detachAllBuffers
  let st2 := st1.consumeFrame 0 f
  let r := fillBuffers [1, 2, 3, 4] st2
  ([AudioEvent.detachBuffers, AudioEvent.sourceStop, AudioEvent.submit 0 f] ++
      r.1 ++ (if r.2.2 then [AudioEvent.sourcePlay] else []),
    r.2.1, r.2.2)

/-- The steady-state loop of `audioThreadHandler` (audio.cpp:235-281):
reclaim the oldest processed buffer, pop the next frame, compare the buffer's
stored frequency/channels against the frame's; on mismatch run the
format-change section and continue the outer loop; on match submit the frame
into the reclaimed buffer and, if the device reports it is no longer playing
(`oracle n = false`), reissue `alSourcePlay`.  `fuel` bounds the number of
iterations; every iteration consumes at least one queued frame, so
`audioQueue.length + 1` fuel makes the bound irrelevant (lemma
`playLoopFuel_enough` area below). -/
def playLoopFuel : Nat → AudioRenderer → (Nat → Bool) → Nat →
    List AudioEvent × AudioRenderer
  | 0, st, _, _ => ([], st)
  | Nat.succ fuel, st, oracle, n =>
    match st.waitForProcessedBuffer with
    | none => ([], st)
    | some (b, st1) =>
      match st1.popFrame with
      | none => ([], st1)
      | some (f, st2) =>
        if b.frequency ≠ f.sampleRate ∨ b.channels ≠ f.channelCount then
          let r := formatChangeReset st2 f
          if r.2.2 then
            let rest := playLoopFuel fuel r.2.1 oracle n
            (r.1 ++ rest.1, rest.2)
          else
            (r.1, r.2.1)
        else
          let st3 := st2.consumeFrame b.idx f
          let rest := playLoopFuel fuel st3 oracle (n + 1)
          (AudioEvent.submit b.idx f ::
              ((if oracle n then [] else [AudioEvent.sourcePlay]) ++ rest.1),
            rest.2)

/-- The steady-state loop run to exhaustion of the frame queue. -/
def AudioRenderer.playLoop (st : AudioRenderer) (oracle : Nat → Bool)
    (n : Nat) : List AudioEvent × AudioRenderer :=
  playLoopFuel (st.audioQueue.length + 1) st oracle n

/-- audio.cpp:229-284 — `audioThreadHandler`: prebuffer all five buffers,
then enter the outer loop, which issues `alSourcePlay` and runs the
steady-state loop.  The trace ends where the thread blocks for more input. -/
def AudioRenderer.audioThreadHandler (st : AudioRenderer)
    (oracle : Nat → Bool) : List AudioEvent × AudioRenderer :=
  let pre := fillBuffers [0, 1, 2, 3, 4] st
  if pre.2.2 then
    let rest := pre.2.1.playLoop oracle 0
    (pre.1 ++ AudioEvent.sourcePlay :: rest.1, rest.2)
  else
    (pre.1, pre.2.1)

/-- Arguments of one `pushFrame` call. -/
structure PushCall where
  samples : List Int
  sampleCount : Nat
  sampleRate : Nat
  channelCount : Nat
deriving DecidableEq, Repr

/-- The frame a `pushFrame` call constructs (audio.cpp:288-298). -/
def PushCall.frame (c : PushCall) : AudioFrame :=
  { sampleCount := c.sampleCount
    sampleRate := c.sampleRate
    channelCount := c.channelCount
    samples := c.samples.take (c.sampleCount * c.channelCount) }

/-- Apply a sequence of `pushFrame` calls. -/
def pushMany (st : AudioRenderer) (calls : List PushCall) : AudioRenderer :=
  calls.foldl (fun s c => s.pushFrame c.samples c.sampleCount c.sampleRate c.channelCount) st

/-- Operations the two threads perform on the frame queue. -/
inductive QueueOp where
  | push (samples : List Int) (sampleCount sampleRate channelCount : Nat)
  | pop
deriving DecidableEq

/-- Effect of a queue operation on the renderer state; a `pop` on an empty
queue blocks and changes nothing until data arrives. -/
def applyQueueOp (st : AudioRenderer) : QueueOp → AudioRenderer
  | QueueOp.push ss sc sr cc => st.pushFrame ss sc sr cc
  | QueueOp.pop =>
    match st.popFrame with
    | none => st
    | some (_, st1) => st1

/-- audio.cpp invariant claimed by the spec: `queuedSampleCount` equals the
sum of `sampleCount` over the frames in the queue. -/
def queueInv (st : AudioRenderer) : Prop :=
  st.queuedSampleCount = ((st.audioQueue.map AudioFrame.sampleCount).sum : Int)

instance (st : AudioRenderer) : Decidable (queueInv st) := by
  unfold queueInv; infer_instance

/-- Sum of the sample counts of the frames resident in device buffers. -/
def residentSampleCount (st : AudioRenderer) : Int :=
  ((st.devQueue.map DevBuffer.frameSampleCount).sum : Int)

/-! ## Helper lemmas -/

theorem fillBuffers_submitted (is : List Nat) (st : AudioRenderer) :
    submittedFrames (fillBuffers is st).1 = st.audioQueue.take is.length := by
  induction is generalizing st with
  | nil => simp [fillBuffers, submittedFrames]
  | cons i is ih =>
    cases hq : st.audioQueue with
    | nil => simp [fillBuffers, AudioRenderer.popFrame, hq, submittedFrames]
    | cons f rest =>
      simp [fillBuffers, AudioRenderer.popFrame, hq, submittedFrames,
        AudioRenderer.consumeFrame]
      have := ih ({ st with
        audioQueue := rest,
        queuedSampleCount := st.queuedSampleCount - (f.sampleCount : Int) }.consumeFrame i f)
      simp [AudioRenderer.consumeFrame, submittedFrames] at this
      simp [this]

theorem fillBuffers_queue (is : List Nat) (st : AudioRenderer) :
    (fillBuffers is st).2.1.audioQueue = st.audioQueue.drop is.length := by
  induction is generalizing st with
  | nil => simp [fillBuffers]
  | cons i is ih =>
    cases hq : st.audioQueue with
    | nil => simp [fillBuffers, AudioRenderer.popFrame, hq]
    | cons f rest =>
      have h := ih ({ st with
        audioQueue := rest,
        queuedSampleCount := st.queuedSampleCount - (f.sampleCount : Int) }.consumeFrame i f)
      simp [AudioRenderer.consumeFrame] at h
      simp [fillBuffers, AudioRenderer.popFrame, hq, AudioRenderer.consumeFrame, h]

theorem fillBuffers_devQueue (is : List Nat) (st : AudioRenderer) :
    (fillBuffers is st).2.1.devQueue =
      st.devQueue ++ List.zipWith bufferDataOf is (st.audioQueue.take is.length) := by
  induction is generalizing st with
  | nil => simp [fillBuffers]
  | cons i is ih =>
    cases hq : st.audioQueue with
    | nil => simp [fillBuffers, AudioRenderer.popFrame, hq]
    | cons f rest =>
      have h := ih ({ st with
        audioQueue := rest,
        queuedSampleCount := st.queuedSampleCount - (f.sampleCount : Int) }.consumeFrame i f)
      simp [AudioRenderer.consumeFrame] at h
      simp [fillBuffers, AudioRenderer.popFrame, hq, AudioRenderer.consumeFrame, h]

theorem fillBuffers_done (is : List Nat) (st : AudioRenderer) :
    (fillBuffers is st).2.2 = decide (is.length ≤ st.audioQueue.length) := by
  induction is generalizing st with
  | nil => simp [fillBuffers]
  | cons i is ih =>
    cases hq : st.audioQueue with
    | nil => simp [fillBuffers, AudioRenderer.popFrame, hq]
    | cons f rest =>
      have h := ih ({ st with
        audioQueue := rest,
        queuedSampleCount := st.queuedSampleCount - (f.sampleCount : Int) }.consumeFrame i f)
      simp [AudioRenderer.consumeFrame] at h
      simp [fillBuffers, AudioRenderer.popFrame, hq, AudioRenderer.consumeFrame, h]




theorem submittedFrames_append (a b : List AudioEvent) :
    submittedFrames (a ++ b) = submittedFrames a ++ submittedFrames b := by
  simp [submittedFrames]

theorem formatChangeReset_submitted (st : AudioRenderer) (f : AudioFrame) :
    submittedFrames (formatChangeReset st f).1 = f :: st.audioQueue.take 4 := by
  have h := fillBuffers_submitted [1, 2, 3, 4] ((st.detachAllBuffers).consumeFrame 0 f)
  simp [AudioRenderer.consumeFrame, AudioRenderer.detachAllBuffers] at h
  cases hdone : (fillBuffers [1, 2, 3, 4] ((st.detachAllBuffers).consumeFrame 0 f)).2.2 <;>
    simp [formatChangeReset, AudioRenderer.consumeFrame, AudioRenderer.detachAllBuffers,
      submittedFrames] at h hdone ⊢ <;>
    simp [hdone, h]

theorem formatChangeReset_queue (st : AudioRenderer) (f : AudioFrame) :
    (formatChangeReset st f).2.1.audioQueue = st.audioQueue.drop 4 := by
  have h := fillBuffers_queue [1, 2, 3, 4] ((st.detachAllBuffers).consumeFrame 0 f)
  simp [AudioRenderer.consumeFrame, AudioRenderer.detachAllBuffers] at h
  simp [formatChangeReset, AudioRenderer.consumeFrame, AudioRenderer.detachAllBuffers, h]

theorem formatChangeReset_devQueue (st : AudioRenderer) (f : AudioFrame) :
    (formatChangeReset st f).2.1.devQueue =
      bufferDataOf 0 f :: List.zipWith bufferDataOf [1, 2, 3, 4] (st.audioQueue.take 4) := by
  have h := fillBuffers_devQueue [1, 2, 3, 4] ((st.detachAllBuffers).consumeFrame 0 f)
  simp [AudioRenderer.consumeFrame, AudioRenderer.detachAllBuffers] at h
  simp [formatChangeReset, AudioRenderer.consumeFrame, AudioRenderer.detachAllBuffers, h]

theorem formatChangeReset_done (st : AudioRenderer) (f : AudioFrame) :
    (formatChangeReset st f).2.2 = decide (4 ≤ st.audioQueue.length) := by
  have h := fillBuffers_done [1, 2, 3, 4] ((st.detachAllBuffers).consumeFrame 0 f)
  simp [AudioRenderer.consumeFrame, AudioRenderer.detachAllBuffers] at h
  simp [formatChangeReset, AudioRenderer.consumeFrame, AudioRenderer.detachAllBuffers, h]

theorem playLoopFuel_submitted (fuel : Nat) :
    ∀ (st : AudioRenderer) (oracle : Nat → Bool) (n : Nat),
      st.audioQueue.length + 1 ≤ fuel → st.devQueue ≠ [] →
      submittedFrames (playLoopFuel fuel st oracle n).1 = st.audioQueue := by
  induction fuel with
  | zero => intro st oracle n hf _; omega
  | succ fuel ih =>
    intro st oracle n hf hd
    cases hdq : st.devQueue with
    | nil => exact absurd hdq hd
    | cons b q =>
      cases hq : st.audioQueue with
      | nil =>
        simp [playLoopFuel, AudioRenderer.waitForProcessedBuffer, hdq,
          AudioRenderer.popFrame, hq, submittedFrames]
      | cons f rest =>
        have hflen : rest.length + 2 ≤ fuel + 1 := by
          rw [hq] at hf; simpa using hf
        by_cases hfmt : b.frequency ≠ f.sampleRate ∨ b.channels ≠ f.channelCount
        · simp only [playLoopFuel, AudioRenderer.waitForProcessedBuffer, hdq,
            AudioRenderer.popFrame, hq, hfmt, if_pos]
          by_cases hlen : 4 ≤ rest.length
          · have ihx := ih (formatChangeReset
                ({ audioQueue := rest
                   queuedSampleCount := st.queuedSampleCount - (f.sampleCount : Int)
                   bufferedSampleCount :=
                     st.bufferedSampleCount - (reclaimedSampleCount b : Int)
                   secondsPlayed := st.secondsPlayed
                   devQueue := q } : AudioRenderer) f).2.1 oracle n
              (by rw [formatChangeReset_queue]; simp; omega)
              (by rw [formatChangeReset_devQueue]; simp)
            rw [formatChangeReset_queue] at ihx
            simp only [formatChangeReset_done]
            simp [hlen, submittedFrames_append, formatChangeReset_submitted, ihx,
              List.take_append_drop]
          · simp only [formatChangeReset_done]
            have hr4 : List.take 4 rest = rest := List.take_of_length_le (by omega)
            simp [hlen, submittedFrames_append, formatChangeReset_submitted, hr4]
        · have hb : b.frequency = f.sampleRate ∧ b.channels = f.channelCount := by
            push_neg at hfmt; exact hfmt
          simp only [playLoopFuel, AudioRenderer.waitForProcessedBuffer, hdq,
            AudioRenderer.popFrame, hq, hfmt, if_neg, AudioRenderer.consumeFrame,
            not_false_eq_true]
          have ihx := ih
            ({ audioQueue := rest
               queuedSampleCount := st.queuedSampleCount - (f.sampleCount : Int)
               bufferedSampleCount :=
                 st.bufferedSampleCount - (reclaimedSampleCount b : Int) + (f.sampleCount : Int)
               secondsPlayed := st.secondsPlayed + (f.sampleCount : Rat) / (f.sampleRate : Rat)
               devQueue := q ++ [bufferDataOf b.idx f] } : AudioRenderer) oracle (n + 1)
            (by simp; omega) (by simp)
          simp at ihx
          cases horacle : oracle n <;>
            simp [submittedFrames, horacle] at ihx ⊢ <;>
            simp [ihx]

theorem audioThreadHandler_submitted (st : AudioRenderer) (oracle : Nat → Bool) :
    submittedFrames (st.audioThreadHandler oracle).1 = st.audioQueue := by
  by_cases hlen : 5 ≤ st.audioQueue.length
  · have hdone : (fillBuffers [0, 1, 2, 3, 4] st).2.2 = true := by
      rw [fillBuffers_done]; simpa using hlen
    have hne : (fillBuffers [0, 1, 2, 3, 4] st).2.1.devQueue ≠ [] := by
      rw [fillBuffers_devQueue]
      have h5 : (st.audioQueue.take 5).length = 5 := by
        simp [List.length_take]; omega
      intro hcon
      rcases List.append_eq_nil.mp hcon with ⟨-, hz⟩
      have := congrArg List.length hz
      simp [List.length_zipWith, h5] at this
    have hloop := playLoopFuel_submitted
      ((fillBuffers [0, 1, 2, 3, 4] st).2.1.audioQueue.length + 1)
      (fillBuffers [0, 1, 2, 3, 4] st).2.1 oracle 0 (le_refl _) hne
    simp only [AudioRenderer.audioThreadHandler, AudioRenderer.playLoop, hdone, if_pos]
    set L := playLoopFuel ((fillBuffers [0, 1, 2, 3, 4] st).2.1.audioQueue.length + 1)
      (fillBuffers [0, 1, 2, 3, 4] st).2.1 oracle 0 with hL
    rw [fillBuffers_queue] at hloop
    have hplay : submittedFrames (AudioEvent.sourcePlay :: L.1) = submittedFrames L.1 := by
      simp [submittedFrames]
    rw [submittedFrames_append, fillBuffers_submitted, hplay, hloop]
    simp [List.take_append_drop]
  · have hdone : (fillBuffers [0, 1, 2, 3, 4] st).2.2 = false := by
      rw [fillBuffers_done]; simpa using hlen
    have hr5 : List.take 5 st.audioQueue = st.audioQueue :=
      List.take_of_length_le (by omega)
    simp only [AudioRenderer.audioThreadHandler, hdone]
    simp [fillBuffers_submitted, hr5]

theorem pushMany_queue (calls : List PushCall) :
    ∀ st : AudioRenderer,
      (pushMany st calls).audioQueue = st.audioQueue ++ calls.map PushCall.frame := by
  induction calls with
  | nil => intro st; simp [pushMany]
  | cons c calls ih =>
    intro st
    simp [pushMany] at ih ⊢
    rw [ih]
    simp [AudioRenderer.pushFrame, PushCall.frame]

theorem pushMany_devQueue (calls : List PushCall) :
    ∀ st : AudioRenderer, (pushMany st calls).devQueue = st.devQueue := by
  induction calls with
  | nil => intro st; simp [pushMany]
  | cons c calls ih =>
    intro st
    simp [pushMany] at ih ⊢
    rw [ih]
    simp [AudioRenderer.pushFrame]

/-! ## Concrete inputs used by witnesses and counterexamples -/

/-- A 4-sample mono frame at 44100 Hz. -/
def frame44 : AudioFrame := { sampleCount := 4, sampleRate := 44100, channelCount := 1, samples := [] }

/-- A 4-sample mono frame at 48000 Hz. -/
def frame48 : AudioFrame := { sampleCount := 4, sampleRate := 48000, channelCount := 1, samples := [] }

/-- A 4-sample mono frame at 22050 Hz. -/
def frame22 : AudioFrame := { sampleCount := 4, sampleRate := 22050, channelCount := 1, samples := [] }

/-- Renderer state whose queue holds five 44100 Hz frames followed by frames
of two further different sample rates (48000 then 22050): the refill after the
format change then mixes formats. -/
def mixedFormatState : AudioRenderer :=
  { initialRenderer with
    audioQueue := [frame44, frame44, frame44, frame44, frame44,
      frame48, frame22, frame48, frame48, frame48] }

/-- Renderer state whose queue holds five 44100 Hz frames followed by five
48000 Hz frames: exactly one format change occurs during the run. -/
def formatSwitchState : AudioRenderer :=
  { initialRenderer with
    audioQueue := [frame44, frame44, frame44, frame44, frame44,
      frame48, frame48, frame48, frame48, frame48] }


/-! ## Claims -/

/-- C1: for every sequence of frames pushed via `pushFrame`, the frames
submitted to the Output Device by the playback thread, in submission order,
are exactly the pushed frames in push order — no frame is reordered,
duplicated or dropped (also across format-change transitions, where the
mismatched frame is submitted first after the drain) — and hence the
concatenation of the submitted sample data equals the concatenation of the
pushed samples. -/
theorem pushed_frames_submitted_in_fifo_order (calls : List PushCall)
    (oracle : Nat → Bool) :
    submittedFrames ((pushMany initialRenderer calls).audioThreadHandler oracle).1 =
      calls.map PushCall.frame ∧
    ((submittedFrames ((pushMany initialRenderer calls).audioThreadHandler oracle).1).map
        AudioFrame.samples).flatten =
      ((calls.map PushCall.frame).map AudioFrame.samples).flatten := by
  have h := audioThreadHandler_submitted (pushMany initialRenderer calls) oracle
  rw [pushMany_queue] at h
  simp only [show initialRenderer.audioQueue = [] from rfl, List.nil_append] at h
  exact ⟨h, by rw [h]⟩

/-- C2 counterexample: pushing five 44100 Hz frames, then a 48000 Hz frame,
then a 22050 Hz frame (and three more 48000 Hz frames) triggers a format
change at the 48000 Hz frame, after which the refill submits the 22050 Hz
frame into buffer 1 — a buffer submitted after the format change that does
not carry the new 48000 Hz format — and the final buffer pool holds buffers
of two different sample rates concurrently. -/
theorem format_change_isolation_counterexample :
    (mixedFormatState.audioThreadHandler (fun _ => true)).1 =
      [AudioEvent.submit 0 frame44, AudioEvent.submit 1 frame44,
       AudioEvent.submit 2 frame44, AudioEvent.submit 3 frame44,
       AudioEvent.submit 4 frame44, AudioEvent.sourcePlay,
       AudioEvent.detachBuffers, AudioEvent.sourceStop,
       AudioEvent.submit 0 frame48, AudioEvent.submit 1 frame22,
       AudioEvent.submit 2 frame48, AudioEvent.submit 3 frame48,
       AudioEvent.submit 4 frame48, AudioEvent.sourcePlay] ∧
    ((mixedFormatState.audioThreadHandler (fun _ => true)).2.devQueue.map
        DevBuffer.frequency) = [22050, 48000, 48000, 48000] ∧
    frame22.sampleRate ≠ frame48.sampleRate := by
  decide

/-- C2 (amended): in the PLAYING loop, when the popped frame's sample rate or
channel count differs from the reclaimed buffer's stored format, the engine
does not submit that frame in the loop; it detaches all buffers, stops
playback, submits the pending mismatched frame into buffer 0, pops and
submits the next four queued frames into buffers 1–4 and reissues play.
Provided the four refill frames share the mismatched frame's sample rate and
channel count, every buffer resident in the device after the transition
carries the new format; the code performs no such check, so with
differently-formatted refill frames two formats can be resident concurrently
(see the counterexample). -/
theorem format_change_drains_and_refills (fuel : Nat) (st st1 st2 : AudioRenderer)
    (oracle : Nat → Bool) (n : Nat) (b : DevBuffer) (f g1 g2 g3 g4 : AudioFrame)
    (rest : List AudioFrame)
    (hw : st.waitForProcessedBuffer = some (b, st1))
    (hp : st1.popFrame = some (f, st2))
    (hmismatch : b.frequency ≠ f.sampleRate ∨ b.channels ≠ f.channelCount)
    (hq : st2.audioQueue = g1 :: g2 :: g3 :: g4 :: rest) :
    playLoopFuel (fuel + 1) st oracle n =
      ((formatChangeReset st2 f).1 ++
          (playLoopFuel fuel (formatChangeReset st2 f).2.1 oracle n).1,
        (playLoopFuel fuel (formatChangeReset st2 f).2.1 oracle n).2) ∧
    (formatChangeReset st2 f).1 =
      [AudioEvent.detachBuffers, AudioEvent.sourceStop, AudioEvent.submit 0 f,
       AudioEvent.submit 1 g1, AudioEvent.submit 2 g2, AudioEvent.submit 3 g3,
       AudioEvent.submit 4 g4, AudioEvent.sourcePlay] ∧
    (formatChangeReset st2 f).2.1.devQueue =
      [bufferDataOf 0 f, bufferDataOf 1 g1, bufferDataOf 2 g2,
       bufferDataOf 3 g3, bufferDataOf 4 g4] ∧
    ((∀ g ∈ [g1, g2, g3, g4],
        g.sampleRate = f.sampleRate ∧ g.channelCount = f.channelCount) →
      ∀ d ∈ (formatChangeReset st2 f).2.1.devQueue,
        d.frequency = f.sampleRate ∧
        d.channels = (consumeFrameFormat f).channelCount) := by
  have hdone : (formatChangeReset st2 f).2.2 = true := by
    rw [formatChangeReset_done, hq]; simp
  have htrace : (formatChangeReset st2 f).1 =
      [AudioEvent.detachBuffers, AudioEvent.sourceStop, AudioEvent.submit 0 f,
       AudioEvent.submit 1 g1, AudioEvent.submit 2 g2, AudioEvent.submit 3 g3,
       AudioEvent.submit 4 g4, AudioEvent.sourcePlay] := by
    simp [formatChangeReset, AudioRenderer.detachAllBuffers, AudioRenderer.consumeFrame,
      fillBuffers, AudioRenderer.popFrame, hq]
  have hdev : (formatChangeReset st2 f).2.1.devQueue =
      [bufferDataOf 0 f, bufferDataOf 1 g1, bufferDataOf 2 g2,
       bufferDataOf 3 g3, bufferDataOf 4 g4] := by
    rw [formatChangeReset_devQueue, hq]; simp
  refine ⟨?_, htrace, hdev, ?_⟩
  · simp [playLoopFuel, hw, hp, hmismatch, hdone]
  · intro hfmt d hd
    rw [hdev] at hd
    have hchan : ∀ g : AudioFrame, g.channelCount = f.channelCount →
        (consumeFrameFormat g).channelCount = (consumeFrameFormat f).channelCount := by
      intro g hg; simp [consumeFrameFormat, hg]
    rcases hfmt g1 (by simp) with ⟨h1r, h1c⟩
    rcases hfmt g2 (by simp) with ⟨h2r, h2c⟩
    rcases hfmt g3 (by simp) with ⟨h3r, h3c⟩
    rcases hfmt g4 (by simp) with ⟨h4r, h4c⟩
    simp only [List.mem_cons, List.not_mem_nil, or_false] at hd
    rcases hd with h | h | h | h | h <;> subst h <;>
      simp [bufferDataOf, h1r, h2r, h3r, h4r, hchan _ h1c, hchan _ h2c,
        hchan _ h3c, hchan _ h4c]

/-- Pre-state for the format-change witness: one 44100 Hz buffer queued on
the device, five 48000 Hz frames queued. -/
def c2PreState : AudioRenderer :=
  { audioQueue := [frame48, frame48, frame48, frame48, frame48]
    queuedSampleCount := 20
    bufferedSampleCount := 4
    secondsPlayed := 0
    devQueue := [bufferDataOf 0 frame44] }

/-- State `c2PreState` after `waitForProcessedBuffer` reclaimed the 44100 Hz buffer. -/
def c2MidState : AudioRenderer :=
  { audioQueue := [frame48, frame48, frame48, frame48, frame48]
    queuedSampleCount := 20
    bufferedSampleCount := 0
    secondsPlayed := 0
    devQueue := [] }

/-- State `c2MidState` after `popFrame` removed the first 48000 Hz frame. -/
def c2PostState : AudioRenderer :=
  { audioQueue := [frame48, frame48, frame48, frame48]
    queuedSampleCount := 16
    bufferedSampleCount := 0
    secondsPlayed := 0
    devQueue := [] }

/-- Witness for `format_change_drains_and_refills` at a concrete format
change from 44100 Hz to 48000 Hz. -/
theorem format_change_drains_and_refills_witness :
    (formatChangeReset c2PostState frame48).1 =
      [AudioEvent.detachBuffers, AudioEvent.sourceStop, AudioEvent.submit 0 frame48,
       AudioEvent.submit 1 frame48, AudioEvent.submit 2 frame48,
       AudioEvent.submit 3 frame48, AudioEvent.submit 4 frame48,
       AudioEvent.sourcePlay] :=
  (format_change_drains_and_refills 0 c2PreState c2MidState c2PostState
    (fun _ => true) 0 (bufferDataOf 0 frame44) frame48 frame48 frame48 frame48
    frame48 [] (by decide) (by decide) (Or.inl (by decide)) (by decide)).2.1

/-- C3 (code evaluated at the failing input): running the engine on five
44100 Hz frames followed by five 48000 Hz frames — a single format change —
leaves `bufferedSampleCount` at 32 while only 16 samples are resident in
device buffers: the detach-all step of the format-change path
(audio.cpp:270) removes four filled buffers from the device without
subtracting their samples from `bufferedSampleCount`, so the counter
permanently exceeds the resident total. -/
theorem bufferedSampleCount_drifts_after_format_change :
    (formatSwitchState.audioThreadHandler (fun _ => true)).2.bufferedSampleCount = 32 ∧
    residentSampleCount (formatSwitchState.audioThreadHandler (fun _ => true)).2 = 16 ∧
    ¬ ((formatSwitchState.audioThreadHandler (fun _ => true)).2.bufferedSampleCount =
        residentSampleCount (formatSwitchState.audioThreadHandler (fun _ => true)).2) := by
  decide

/-- C4: `queuedSampleCount` always equals the sum of `sampleCount` over the
frames in the queue: each `pushFrame` appends the frame and adds its count in
the same critical section, each `popFrame` removes the head and subtracts its
count in the same critical section, so the invariant is preserved by every
queue operation and holds after every sequence of pushes and pops from the
initial state. -/
theorem queuedSampleCount_matches_queue_contents :
    (∀ (st : AudioRenderer) (op : QueueOp),
      queueInv st → queueInv (applyQueueOp st op)) ∧
    (∀ ops : List QueueOp, queueInv (ops.foldl applyQueueOp initialRenderer)) := by
  have hstep : ∀ (st : AudioRenderer) (op : QueueOp),
      queueInv st → queueInv (applyQueueOp st op) := by
    intro st op h
    cases op with
    | push ss sc sr cc =>
      simp [applyQueueOp, AudioRenderer.pushFrame, queueInv] at h ⊢
      omega
    | pop =>
      cases hq : st.audioQueue with
      | nil => simpa [applyQueueOp, AudioRenderer.popFrame, hq] using h
      | cons f rest =>
        simp [applyQueueOp, AudioRenderer.popFrame, hq, queueInv] at h ⊢
        omega
  refine ⟨hstep, fun ops => ?_⟩
  have hall : ∀ (ops : List QueueOp) (st : AudioRenderer),
      queueInv st → queueInv (ops.foldl applyQueueOp st) := by
    intro ops
    induction ops with
    | nil => intro st h; simpa using h
    | cons op ops ih => intro st h; simpa using ih _ (hstep st op h)
  exact hall ops initialRenderer (by decide)

/-- Witness for `queuedSampleCount_matches_queue_contents`: one concrete
push step preserves the invariant. -/
theorem queuedSampleCount_matches_queue_contents_witness :
    queueInv initialRenderer ∧
    queueInv (applyQueueOp initialRenderer (QueueOp.push [] 4 44100 1)) :=
  ⟨by decide, queuedSampleCount_matches_queue_contents.1 initialRenderer
    (QueueOp.push [] 4 44100 1) (by decide)⟩

/-- C5 (code evaluated at the failing input): when the queue is empty and
`pthread_cond_wait` reports an error, `popFrame` executes `return nullptr`
(audio.cpp:158) without unlocking the mutex — the thread returns a null
frame while still holding the lock, and the caller `consumeFrame`
immediately dereferences it (audio.cpp:174). -/
theorem popFrame_wait_error_returns_null_with_mutex_held :
    AudioRenderer.popFrameWithWait initialRenderer true =
      PopFrameResult.nullMutexHeld initialRenderer := by
  decide

/-- C6: the playback clock is monotone: `consumeFrame` adds exactly
`sampleCount / sampleRate` (which is nonnegative, so the clock never
decreases), no other renderer operation changes `secondsPlayed`,
`resetSecondsPlayed` sets it to 0, and `getSecondsPlayed` returns its
current value. -/
theorem secondsPlayed_monotonic_clock (st : AudioRenderer) (i : Nat)
    (f : AudioFrame) :
    (st.consumeFrame i f).secondsPlayed =
      st.secondsPlayed + (f.sampleCount : Rat) / (f.sampleRate : Rat) ∧
    st.secondsPlayed ≤ (st.consumeFrame i f).secondsPlayed ∧
    (∀ ss sc sr cc, (st.pushFrame ss sc sr cc).secondsPlayed = st.secondsPlayed) ∧
    (∀ f' st', st.popFrame = some (f', st') → st'.secondsPlayed = st.secondsPlayed) ∧
    (∀ b st', st.waitForProcessedBuffer = some (b, st') →
      st'.secondsPlayed = st.secondsPlayed) ∧
    st.detachAllBuffers.secondsPlayed = st.secondsPlayed ∧
    st.resetSecondsPlayed.secondsPlayed = 0 ∧
    st.getSecondsPlayed = st.secondsPlayed := by
  refine ⟨rfl, ?_, fun ss sc sr cc => rfl, ?_, ?_, rfl, rfl, rfl⟩
  · have hnn : (0 : Rat) ≤ (f.sampleCount : Rat) / (f.sampleRate : Rat) :=
      div_nonneg (by positivity) (by positivity)
    simpa [AudioRenderer.consumeFrame] using
      le_add_of_nonneg_right (a := st.secondsPlayed) hnn
  · intro f' st' h
    cases hq : st.audioQueue with
    | nil => simp [AudioRenderer.popFrame, hq] at h
    | cons g rest =>
      simp [AudioRenderer.popFrame, hq] at h
      rw [← h.2]
  · intro b st' h
    cases hd : st.devQueue with
    | nil => simp [AudioRenderer.waitForProcessedBuffer, hd] at h
    | cons c rest =>
      simp [AudioRenderer.waitForProcessedBuffer, hd] at h
      rw [← h.2]

/-- Witness for `secondsPlayed_monotonic_clock`: the pop and reclaim clauses
applied at a concrete one-frame, one-buffer state. -/
theorem secondsPlayed_monotonic_clock_witness :
    ({ audioQueue := []
       queuedSampleCount := 0
       bufferedSampleCount := 4
       secondsPlayed := 0
       devQueue := [bufferDataOf 0 frame44] } : AudioRenderer).secondsPlayed =
      ({ audioQueue := [frame44]
         queuedSampleCount := 4
         bufferedSampleCount := 4
         secondsPlayed := 0
         devQueue := [bufferDataOf 0 frame44] } : AudioRenderer).secondsPlayed ∧
    ({ audioQueue := [frame44]
       queuedSampleCount := 4
       bufferedSampleCount := 0
       secondsPlayed := 0
       devQueue := [] } : AudioRenderer).secondsPlayed =
      ({ audioQueue := [frame44]
         queuedSampleCount := 4
         bufferedSampleCount := 4
         secondsPlayed := 0
         devQueue := [bufferDataOf 0 frame44] } : AudioRenderer).secondsPlayed :=
  ⟨(secondsPlayed_monotonic_clock
      ({ audioQueue := [frame44]
         queuedSampleCount := 4
         bufferedSampleCount := 4
         secondsPlayed := 0
         devQueue := [bufferDataOf 0 frame44] } : AudioRenderer) 0 frame44).2.2.2.1
      frame44 _ (by decide),
   (secondsPlayed_monotonic_clock
      ({ audioQueue := [frame44]
         queuedSampleCount := 4
         bufferedSampleCount := 4
         secondsPlayed := 0
         devQueue := [bufferDataOf 0 frame44] } : AudioRenderer) 0 frame44).2.2.2.2.1
      (bufferDataOf 0 frame44) _ (by decide)⟩

/-- C7 counterexample: a frame with 3 channels is submitted with the stereo
device format (2 stored channels) but a byte size computed from 3 channels,
so the reclaimed count `size * 8 / (channels * bits)` is 1536, not the
original 1024 — the amount subtracted at reclamation differs from the amount
added at submission. -/
theorem reclaimed_count_roundtrip_counterexample :
    reclaimedSampleCount (bufferDataOf 0
      { sampleCount := 1024, sampleRate := 44100, channelCount := 3, samples := [] }) = 1536 ∧
    ({ sampleCount := 1024, sampleRate := 44100, channelCount := 3,
       samples := [] } : AudioFrame).sampleCount = 1024 ∧
    (1536 : Nat) ≠ 1024 := by
  decide

/-- C7 (amended): for frames whose channel count is 1 or 2 — exactly the
cases where the device-stored channel count equals the frame's — the sample
count recomputed at reclamation, `size * 8 / (channels * bits)` in integer
arithmetic, equals the frame's original `sampleCount`, so reclaiming the
buffer subtracts from `bufferedSampleCount` exactly what its submission
added.  For any other channel count the stereo format is stored and the
round trip breaks (see the counterexample). -/
theorem reclaimed_count_roundtrip (i : Nat) (f : AudioFrame)
    (h : f.channelCount = 1 ∨ f.channelCount = 2) :
    reclaimedSampleCount (bufferDataOf i f) = f.sampleCount ∧
    (∀ st : AudioRenderer, (st.consumeFrame i f).bufferedSampleCount =
      st.bufferedSampleCount + (f.sampleCount : Int)) ∧
    (∀ (st : AudioRenderer) (rest : List DevBuffer),
      st.devQueue = bufferDataOf i f :: rest →
      st.waitForProcessedBuffer = some (bufferDataOf i f,
        { st with
          devQueue := rest
          bufferedSampleCount := st.bufferedSampleCount - (f.sampleCount : Int) })) := by
  have hcount : reclaimedSampleCount (bufferDataOf i f) = f.sampleCount := by
    rcases h with h | h <;>
      simp [reclaimedSampleCount, bufferDataOf, consumeFrameSize, consumeFrameFormat,
        ALFormat.channelCount, ALFormat.bits, h] <;>
      omega
  refine ⟨hcount, fun st => rfl, ?_⟩
  intro st rest hdev
  simp [AudioRenderer.waitForProcessedBuffer, hdev, hcount]

/-- Witness for `reclaimed_count_roundtrip` at a 1024-sample mono frame. -/
theorem reclaimed_count_roundtrip_witness :
    reclaimedSampleCount (bufferDataOf 0
      { sampleCount := 1024, sampleRate := 44100, channelCount := 1, samples := [] }) = 1024 :=
  (reclaimed_count_roundtrip 0
    { sampleCount := 1024, sampleRate := 44100, channelCount := 1, samples := [] }
    (Or.inl rfl)).1

/-- C8: `getBufferSize` returns `bufferedSampleCount + queuedSampleCount`;
after pushing five frames of 1024 mono samples at 44100 Hz and before the
engine consumes any, it returns 5120, and after the engine has submitted all
five, `getSecondsPlayed` returns exactly 5×1024/44100 seconds. -/
theorem getBufferSize_is_pipeline_depth :
    (∀ st : AudioRenderer,
      st.getBufferSize = st.bufferedSampleCount + st.queuedSampleCount) ∧
    (pushMany initialRenderer (List.replicate 5
      { samples := List.replicate 1024 0, sampleCount := 1024, sampleRate := 44100,
        channelCount := 1 })).getBufferSize = 5120 ∧
    ((pushMany initialRenderer (List.replicate 5
      { samples := List.replicate 1024 0, sampleCount := 1024, sampleRate := 44100,
        channelCount := 1 })).audioThreadHandler (fun _ => true)).2.getSecondsPlayed =
      5120 / 44100 := by
  refine ⟨fun st => rfl, by decide, ?_⟩
  set_option maxRecDepth 4096 in
  norm_num [pushMany, List.replicate, AudioRenderer.pushFrame,
    AudioRenderer.audioThreadHandler, fillBuffers, AudioRenderer.popFrame,
    AudioRenderer.consumeFrame, AudioRenderer.playLoop, playLoopFuel,
    AudioRenderer.waitForProcessedBuffer, AudioRenderer.getSecondsPlayed,
    initialRenderer, bufferDataOf, consumeFrameFormat, consumeFrameSize,
    reclaimedSampleCount, ALFormat.channelCount, ALFormat.bits]

/-- C9: in the steady-state loop, after a matching-format submission the
engine queries the device playback state; when it is not playing
(`oracle n = false`) the very next event is a reissued play command, no
error is raised, and the loop simply continues from the next state — silent
underrun recovery. -/
theorem underrun_silently_recovered (fuel : Nat) (st st1 st2 : AudioRenderer)
    (oracle : Nat → Bool) (n : Nat) (b : DevBuffer) (f : AudioFrame)
    (hw : st.waitForProcessedBuffer = some (b, st1))
    (hp : st1.popFrame = some (f, st2))
    (hrate : b.frequency = f.sampleRate) (hch : b.channels = f.channelCount)
    (hstop : oracle n = false) :
    playLoopFuel (fuel + 1) st oracle n =
      (AudioEvent.submit b.idx f :: AudioEvent.sourcePlay ::
          (playLoopFuel fuel (st2.consumeFrame b.idx f) oracle (n + 1)).1,
        (playLoopFuel fuel (st2.consumeFrame b.idx f) oracle (n + 1)).2) := by
  simp [playLoopFuel, hw, hp, hrate, hch, hstop]

/-- Witness for `underrun_silently_recovered` at a concrete one-frame,
one-buffer state with the device reported stopped. -/
theorem underrun_silently_recovered_witness :
    playLoopFuel 1
      ({ audioQueue := [frame44]
         queuedSampleCount := 4
         bufferedSampleCount := 4
         secondsPlayed := 0
         devQueue := [bufferDataOf 0 frame44] } : AudioRenderer) (fun _ => false) 0 =
      (AudioEvent.submit 0 frame44 :: AudioEvent.sourcePlay ::
          (playLoopFuel 0
            (AudioRenderer.consumeFrame
              { audioQueue := []
                queuedSampleCount := 0
                bufferedSampleCount := 0
                secondsPlayed := 0
                devQueue := [] } 0 frame44) (fun _ => false) 1).1,
        (playLoopFuel 0
          (AudioRenderer.consumeFrame
            { audioQueue := []
              queuedSampleCount := 0
              bufferedSampleCount := 0
              secondsPlayed := 0
              devQueue := [] } 0 frame44) (fun _ => false) 1).2) :=
  underrun_silently_recovered 0
    ({ audioQueue := [frame44]
       queuedSampleCount := 4
       bufferedSampleCount := 4
       secondsPlayed := 0
       devQueue := [bufferDataOf 0 frame44] } : AudioRenderer)
    ({ audioQueue := [frame44]
       queuedSampleCount := 4
       bufferedSampleCount := 0
       secondsPlayed := 0
       devQueue := [] } : AudioRenderer)
    ({ audioQueue := []
       queuedSampleCount := 0
       bufferedSampleCount := 0
       secondsPlayed := 0
       devQueue := [] } : AudioRenderer)
    (fun _ => false) 0 (bufferDataOf 0 frame44) frame44
    (by decide) (by decide) (by decide) (by decide) rfl

/-- C10: `consumeFrame` selects the 16-bit mono device format exactly when
the frame's channel count is 1 and the 16-bit stereo format for every other
channel count (including 0 and 3); the submitted byte size is always
`sampleCount * channelCount * 2`; no channel count is rejected. -/
theorem consumeFrame_format_selection (f : AudioFrame) :
    (consumeFrameFormat f = ALFormat.mono16 ↔ f.channelCount = 1) ∧
    (consumeFrameFormat f = ALFormat.stereo16 ↔ ¬ f.channelCount = 1) ∧
    consumeFrameSize f = f.sampleCount * f.channelCount * 2 ∧
    consumeFrameFormat { f with channelCount := 0 } = ALFormat.stereo16 ∧
    consumeFrameFormat { f with channelCount := 3 } = ALFormat.stereo16 := by
  by_cases h : f.channelCount = 1 <;>
    simp [consumeFrameFormat, consumeFrameSize, h]
